import Mathlib

/-!
Shallow embedding of the TERA identifier-resolution and entity-alignment
engine (modules tera/DataIntegration.py, tera/DataAccess.py, tera/utils.py)
together with proofs about its conversion behaviour.

Python dictionaries are modelled as association lists with unique keys kept
in insertion order; assignment updates an existing binding in place and
otherwise appends, exactly as CPython dicts behave.  Python exceptions are
modelled with `Except PyErr`.
-/

namespace Tera

/-- The Python exceptions that the embedded code can raise.
`typeError` is raised by `collections.defaultdict` when its first argument
is neither callable nor None; `keyError` by a plain-dict lookup miss;
`parseError` stands for the rdflib error propagated by `Graph.parse` on a
missing or malformed file; `notImplemented` carries the arguments of the
`NotImplementedError` raised by `API.convert_id` (source scheme, target
scheme, and the comma-joined supported schemes). -/
inductive PyErr where
  | typeError : PyErr
  | keyError : PyErr
  | parseError : PyErr
  | recursionError : PyErr
  | notImplemented : String → String → String → PyErr
deriving DecidableEq

/-- Python dict assignment `d[k] = v`: if the key is already bound, the
binding is updated in place (position preserved); otherwise the new binding
is appended at the end. -/
def pyInsert {α β : Type} [DecidableEq α] : List (α × β) → α → β → List (α × β)
  | [], k, v => [(k, v)]
  | p :: ds, k, v => if p.1 = k then (k, v) :: ds else p :: pyInsert ds k v

/-- The Python dict built by a sequence of assignments performed in order
(e.g. a dict comprehension or a `for` loop of assignments). -/
def pyDictOf {α β : Type} [DecidableEq α] (ps : List (α × β)) : List (α × β) :=
  ps.foldl (fun d p => pyInsert d p.1 p.2) []

/-- Python dict lookup `d[k]` on the association-list representation:
the first (unique) binding of the key, if any. -/
def pyLookup {α β : Type} [DecidableEq α] (d : List (α × β)) (k : α) : Option β :=
  (d.find? (fun p => p.1 = k)).map Prod.snd

/-- The value of the last assignment to key `k` in a list of assignments. -/
def lastValue {α β : Type} [DecidableEq α] (ps : List (α × β)) (k : α) : Option β :=
  (ps.reverse.find? (fun p => p.1 = k)).map Prod.snd

theorem pyLookup_nil {α β : Type} [DecidableEq α] (k : α) :
    pyLookup ([] : List (α × β)) k = none := rfl

theorem pyLookup_cons {α β : Type} [DecidableEq α] (p : α × β) (ds : List (α × β)) (k : α) :
    pyLookup (p :: ds) k = if p.1 = k then some p.2 else pyLookup ds k := by
  by_cases h : p.1 = k
  · simp [pyLookup, List.find?, h]
  · simp [pyLookup, List.find?, h]

theorem pyLookup_pyInsert {α β : Type} [DecidableEq α]
    (d : List (α × β)) (k' k : α) (v : β) :
    pyLookup (pyInsert d k' v) k = if k = k' then some v else pyLookup d k := by
  induction d with
  | nil =>
    by_cases h : k = k'
    · simp [pyInsert, pyLookup_cons, h]
    · have h2 : ¬ k' = k := fun hc => h hc.symm
      simp [pyInsert, pyLookup_cons, pyLookup_nil, h, h2]
  | cons p ds ih =>
    by_cases hp : p.1 = k'
    · simp only [pyInsert, if_pos hp]
      by_cases h : k = k'
      · simp [pyLookup_cons, h]
      · have hpk : ¬ p.1 = k := by
          intro hc
          exact h (by rw [← hc, hp])
        have hkk : ¬ k' = k := fun hc => h hc.symm
        simp [pyLookup_cons, hpk, hkk, h]
    · simp only [pyInsert, if_neg hp]
      by_cases h : k = k'
      · subst h
        simp [pyLookup_cons, hp, ih]
      · by_cases hpk : p.1 = k
        · simp [pyLookup_cons, hpk, h]
        · simp [pyLookup_cons, hpk, ih, h]

theorem lastValue_append_single {α β : Type} [DecidableEq α]
    (ps : List (α × β)) (p : α × β) (k : α) :
    lastValue (ps ++ [p]) k = if p.1 = k then some p.2 else lastValue ps k := by
  by_cases h : p.1 = k
  · simp [lastValue, List.find?, h]
  · simp [lastValue, List.find?, h]

/-- A dict built from a list of assignments answers each lookup with the
value of the last assignment to that key. -/
theorem pyLookup_pyDictOf {α β : Type} [DecidableEq α]
    (ps : List (α × β)) (k : α) :
    pyLookup (pyDictOf ps) k = lastValue ps k := by
  induction ps using List.reverseRecOn with
  | nil => simp [pyDictOf, lastValue, pyLookup_nil]
  | append_singleton ps p ih =>
    have hfold : pyDictOf (ps ++ [p]) = pyInsert (pyDictOf ps) p.1 p.2 := by
      simp [pyDictOf, List.foldl_append]
    rw [hfold, pyLookup_pyInsert, lastValue_append_single]
    by_cases h : k = p.1
    · simp [h]
    · have h2 : ¬ p.1 = k := fun hc => h hc.symm
      simp [h, h2, ih]

/-- If no assignment binds `k`, the resulting dict has no entry for `k`. -/
theorem pyLookup_pyDictOf_eq_none {α β : Type} [DecidableEq α]
    (ps : List (α × β)) (k : α) (h : ∀ p ∈ ps, p.1 ≠ k) :
    pyLookup (pyDictOf ps) k = none := by
  rw [pyLookup_pyDictOf]
  have hfind : ps.reverse.find? (fun p => p.1 = k) = none := by
    rw [List.find?_eq_none]
    intro p hp
    simp only [decide_eq_true_eq]
    exact h p (List.mem_reverse.mp hp)
  simp [lastValue, hfind]

/-- `utils.strip_namespace(string, var)`: for each separator in `var`, split
the string on it and keep the part after the last occurrence; return the
shortest candidate obtained this way (starting from the whole string). -/
def strip_namespace (s : String) (var : List String) : String :=
  var.foldl
    (fun tmp1 v =>
      let tmp2 := ((s.splitOn v).getLastD s)
      if tmp2.length < tmp1.length then tmp2 else tmp1)
    s

/-- A `default_factory` argument handed to `collections.defaultdict`: either
a plain (non-callable) string value or a callable. -/
inductive PyFactory where
  | strVal : String → PyFactory
  | fnVal : (Unit → String) → PyFactory

/-- `collections.defaultdict(default_factory, init)`: CPython raises
`TypeError` when `default_factory` is neither callable nor None; otherwise
the dict is created with the given initial contents. -/
def defaultdictNew (factory : PyFactory) (init : List (String × String)) :
    Except PyErr (PyFactory × List (String × String)) :=
  match factory with
  | PyFactory.strVal _ => Except.error PyErr.typeError
  | PyFactory.fnVal _ => Except.ok (factory, init)

/-- State of one `DataIntegration.Alignment` instance: `mappings` is `none`
while the attribute has not been set (lazy load pending) and `some m` once a
`load` call has assigned the forward table; `loadErr` is the exception that
`load` propagates when triggered (every concrete `load` either fails while
reading its source or reaches `_to_defaultdict`, which raises `TypeError`
because `defaultdict` is given the non-callable string value). -/
structure Alignment where
  mappings : Option (List (String × String))
  loadErr : PyErr
deriving DecidableEq

/-- `Alignment._to_defaultdict`: wraps `self.mappings` in
`defaultdict('no mapping', self.mappings)`.  The first argument is the
string `'no mapping'`, which is not callable, so the call raises
`TypeError`. -/
def Alignment.to_defaultdict (m : List (String × String)) :
    Except PyErr (List (String × String)) :=
  (defaultdictNew (PyFactory.strVal "no mapping") m).map Prod.snd

/-- The reverse-index loop of `Alignment._mapping` (DataIntegration.py
lines 52-55) as written: iterate the forward table, skip entries whose
value is the string `'no mapping'`, and assign `tmp[value] = key`.  In the
running code the receiving `defaultdict('no mapping')` on line 51 raises
`TypeError` before this loop executes (see `Alignment.mappingLoaded`). -/
def reverseTable (m : List (String × String)) : List (String × String) :=
  pyDictOf ((m.filter (fun p => decide (p.2 ≠ "no mapping"))).map (fun p => (p.2, p.1)))

/-- `Alignment._mapping` on an instance whose `mappings` attribute holds a
loaded plain-dict table `m` (the state left behind by a `load` whose final
`_to_defaultdict` raised): with `reverse=True` the construction
`defaultdict('no mapping')` raises `TypeError` immediately; with
`reverse=False` the lookup `tmp[x]` on the plain dict returns the stored
value or raises `KeyError`. -/
def Alignment.mappingLoaded (m : List (String × String)) (x : String) (reverse : Bool) :
    Except PyErr String :=
  if reverse then
    Except.error PyErr.typeError
  else
    match pyLookup m x with
    | some v => Except.ok v
    | none => Except.error PyErr.keyError

/-- `Alignment._mapping`: when the `mappings` attribute is absent the method
first runs `self.load()`, which propagates the load exception; otherwise it
consults the loaded table. -/
def Alignment.mapping (A : Alignment) (x : String) (reverse : Bool) :
    Except PyErr String :=
  match A.mappings with
  | none => Except.error A.loadErr
  | some m => Alignment.mappingLoaded m x reverse

/-- `Alignment.convert(id_, reverse=True, strip=False)`: optionally strips
the namespace from the identifier, then delegates to `_mapping`.  Note the
source default for `reverse` is `True`. -/
def Alignment.convert (A : Alignment) (id_ : String) (reverse : Bool) (strip : Bool) :
    Except PyErr String :=
  Alignment.mapping A (if strip then strip_namespace id_ ["/", "#", "CID"] else id_) reverse

/-- `utils.query_endpoint`: queries a SPARQL endpoint and returns the set of
result rows; any exception (unreachable endpoint, malformed query, bad
response) is caught, a warning is issued, and the empty set is returned.
The parameter `raw` is the outcome of the underlying remote call. -/
def query_endpoint (raw : Except Unit (List (String × String))) :
    List (String × String) :=
  match raw with
  | Except.ok rows => rows
  | Except.error _ => []

/-- `WikidataMapping.load`, table part (DataIntegration.py line 152-155):
`self.mappings = {str(f):str(t) for f,t in res}` where `res` is the
`query_endpoint` result. -/
def WikidataMapping.loadMappings (raw : Except Unit (List (String × String))) :
    List (String × String) :=
  pyDictOf (query_endpoint raw)

/-- `WikidataMapping.load`, full outcome: assigns the table and then calls
`_to_defaultdict`, whose `defaultdict('no mapping', ...)` raises
`TypeError`, so the method never returns normally. -/
def WikidataMapping.load (raw : Except Unit (List (String × String))) :
    Except PyErr (List (String × String)) :=
  Alignment.to_defaultdict (WikidataMapping.loadMappings raw)

/-- `LogMapMapping.load`, table part: from the parsed alignment cells
`(entity1, entity2, score)` keep the cells with `score >= threshold` and
assign `out[str(e1)] = str(e2)` in order. -/
def LogMapMapping.loadMappings (threshold : ℚ) (cells : List (String × String × ℚ)) :
    List (String × String) :=
  pyDictOf ((cells.filter (fun c => decide (threshold ≤ c.2.2))).map (fun c => (c.1, c.2.1)))

/-- `LogMapMapping.load`, full outcome: `g.parse(self.filename)` has no
surrounding handler, so a missing or malformed file propagates the parse
error; on a successful parse the method builds the table and then raises
`TypeError` in `_to_defaultdict`.  The parameter `parsed` is the outcome of
`Graph.parse` plus cell extraction. -/
def LogMapMapping.load (threshold : ℚ)
    (parsed : Except Unit (List (String × String × ℚ))) :
    Except PyErr (List (String × String)) :=
  match parsed with
  | Except.error _ => Except.error PyErr.parseError
  | Except.ok cells => Alignment.to_defaultdict (LogMapMapping.loadMappings threshold cells)

/-- The candidate pairs enumerated by the nested loop of
`StringMatchingMapping.load`: every `(k1, k2)` with `k1` from `dict1` and
`k2` from `dict2`, in loop order. -/
def StringMatchingMapping.candidates (d1 d2 : List String) : List (String × String) :=
  (d1.map (fun k1 => d2.map (fun k2 => (k1, k2)))).flatten

/-- The pairs accepted by `StringMatchingMapping.load`: candidates whose
similarity score is at least the threshold (`if score >= self.threshold`).
`score k1 k2` stands for the `process.extractOne` result on the two label
lists (with the `TypeError` fallback to 0 folded into the function). -/
def StringMatchingMapping.accepted (d1 d2 : List String)
    (score : String → String → ℚ) (threshold : ℚ) : List (String × String) :=
  (StringMatchingMapping.candidates d1 d2).filter
    (fun p => decide (threshold ≤ score p.1 p.2))

/-- `StringMatchingMapping.load`, table part (line 259):
`self.mappings = {k1:k2 for k1,k2 in tmp}` where `tmp` is keyed by the
accepted pairs in loop order, so the comprehension assigns `k1 -> k2` once
per accepted pair, later assignments overwriting earlier ones. -/
def StringMatchingMapping.loadMappings (d1 d2 : List String)
    (score : String → String → ℚ) (threshold : ℚ) : List (String × String) :=
  pyDictOf (StringMatchingMapping.accepted d1 d2 score threshold)

/-- Input to a function decorated with `utils.do_recursively_in_class`:
either a single value or a list/set/tuple collection. -/
inductive PyInput (α : Type) where
  | scalar : α → PyInput α
  | coll : List α → PyInput α

/-- Output of a decorated function: the scalar result, or the dict built by
`dict(zip(x, map(f, x)))` for a collection input. -/
inductive PyOutput (α β : Type) where
  | scalar : β → PyOutput α β
  | table : List (α × β) → PyOutput α β

/-- `utils.do_recursively_in_class`: on a list/set/tuple input return
`dict(zip(x, map(f, x)))`, i.e. the dict assigning each element its scalar
result; on any other input apply the function directly. -/
def do_recursively_in_class {α β : Type} [DecidableEq α] (g : α → β) :
    PyInput α → PyOutput α β
  | PyInput.scalar a => PyOutput.scalar (g a)
  | PyInput.coll xs => PyOutput.table (pyDictOf (xs.zip (xs.map g)))

/-- State of a `DataAccess.API` facade: the designated hub scheme
(`base_identifier`) and the registry dict from scheme name to Alignment
(`mappings`), as set in `API.__init__`. -/
structure API where
  base_identifier : String
  mappings : List (String × Alignment)

/-- `API.convert_id` (single-identifier path of the decorated method), with
explicit recursion fuel standing for Python's call stack:

1. `if f == t: return id_`;
2. strip the namespace when requested;
3. `if f == self.base_identifier and t in self.mappings`: return
   `self.mappings[t].convert(id_)` — `reverse` and `strip` at their
   defaults `True` and `False`;
4. `if f in self.mappings`: recurse on
   `self.mappings[f].convert(id_, reverse=True)` with `f=self.base_identifier`;
5. otherwise raise `NotImplementedError` whose arguments carry `f`, `t` and
   `','.join(self.mappings.keys())`.

The recursive call always has `f = base_identifier`, and its own recursive
branch would need the reverse conversion of step 4 to return normally,
which `Alignment.convert` with `reverse=True` never does, so fuel 2 is
exact. -/
def API.convert_idF : Nat → API → String → String → String → Bool → Except PyErr String
  | 0, _, _, _, _, _ => Except.error PyErr.recursionError
  | Nat.succ n, st, id_, f, t, strip =>
    if f = t then Except.ok id_
    else
      let x := if strip then strip_namespace id_ ["/", "#", "CID"] else id_
      match (if f = st.base_identifier then pyLookup st.mappings t else none) with
      | some A => Alignment.convert A x true false
      | none =>
        match pyLookup st.mappings f with
        | some A =>
          match Alignment.convert A x true false with
          | Except.ok y => API.convert_idF n st y st.base_identifier t false
          | Except.error e => Except.error e
        | none =>
          Except.error
            (PyErr.notImplemented f t (String.intercalate "," (st.mappings.map Prod.fst)))

/-- `API.convert_id` on a single identifier. -/
def API.convert_id (st : API) (id_ f t : String) (strip : Bool) : Except PyErr String :=
  API.convert_idF 2 st id_ f t strip

/-- An Alignment instance whose `load` has run: the forward table
`{'a': 'b'}` was assigned and the final `_to_defaultdict` raised
`TypeError`, leaving a plain dict behind. -/
def Aex : Alignment := { mappings := some [("a", "b")], loadErr := PyErr.typeError }

/-- A facade with hub scheme `h` and one registered spoke scheme `s2`
aligned by `Aex`. -/
def stEx : API := { base_identifier := "h", mappings := [("s2", Aex)] }

/-- A concrete similarity scorer for the string-matching counterexample:
target `b` scores 99, every other target scores 96. -/
def exScore : String → String → ℚ := fun _ k2 => if k2 = "b" then 99 else 96

/-- The hub-forward conversion as the spec words it: look the identifier up
as a key of the Alignment's forward mapping table (source key to target
value), with the `'no mapping'` sentinel on a miss. -/
def specHubForwardConvert (m : List (String × String)) (x : String) : String :=
  match pyLookup m x with
  | some v => v
  | none => "no mapping"

end Tera

deriving instance DecidableEq for Except

namespace Tera

theorem find?_decide_mem_self {α : Type} [DecidableEq α] (l : List α) (s : α)
    (h : s ∈ l) : l.find? (fun x => decide (x = s)) = some s := by
  induction l with
  | nil => cases h
  | cons a l ih =>
    by_cases ha : a = s
    · simp [List.find?, ha]
    · have hs : s ∈ l := by
        cases h with
        | head => exact absurd rfl ha
        | tail _ h2 => exact h2
      simp [List.find?, ha, ih hs]

theorem lastValue_zip_map {α β : Type} [DecidableEq α] (xs : List α) (g : α → β)
    (s : α) (h : s ∈ xs) :
    lastValue (xs.zip (xs.map g)) s = some (g s) := by
  have hzip : xs.zip (xs.map g) = xs.map (fun x => (x, g x)) := by
    have h2 := List.zip_map' (fun x : α => x) g xs
    simpa using h2
  rw [hzip, lastValue, ← List.map_reverse, List.find?_map]
  have hcomp : ((fun p : α × β => decide (p.1 = s)) ∘ (fun x => (x, g x))) =
      fun x => decide (x = s) := rfl
  rw [hcomp, find?_decide_mem_self _ _ (List.mem_reverse.mpr h)]
  rfl

/-- Claim C8 (confirmed), general form: `convert_id` returns the identifier
unchanged whenever source and target scheme coincide, at any fuel. -/
theorem convert_idF_succ_self (n : Nat) (st : API) (id_ X : String) (strip : Bool) :
    API.convert_idF (Nat.succ n) st id_ X X strip = Except.ok id_ := by
  simp [API.convert_idF]

/-- Claim C8 (confirmed): for every scheme name X and every identifier id,
`convert_id(id, f=X, t=X)` returns id unchanged (the identity shortcut on
line 291 fires before any normalization or lookup). -/
theorem convert_id_identity (st : API) (X id_ : String) (strip : Bool) :
    API.convert_id st id_ X X strip = Except.ok id_ :=
  convert_idF_succ_self 1 st id_ X strip

/-- Claim C9 (confirmed): when the source scheme differs from the target,
is not the hub with a registered target, and is not itself a registered
spoke, `convert_id` raises `NotImplementedError` whose arguments carry the
source scheme, the target scheme, and the comma-joined list of registered
scheme names. -/
theorem convert_id_unsupported (st : API) (id_ f t : String) (strip : Bool)
    (h1 : f ≠ t)
    (h2 : ¬ (f = st.base_identifier ∧ (pyLookup st.mappings t).isSome))
    (h3 : pyLookup st.mappings f = none) :
    API.convert_id st id_ f t strip =
      Except.error
        (PyErr.notImplemented f t (String.intercalate "," (st.mappings.map Prod.fst))) := by
  have hhub : (if f = st.base_identifier then pyLookup st.mappings t else none) = none := by
    by_cases hb : f = st.base_identifier
    · rw [if_pos hb]
      cases hlk : pyLookup st.mappings t with
      | none => rfl
      | some A => exact absurd ⟨hb, by rw [hlk]; rfl⟩ h2
    · exact if_neg hb
  show API.convert_idF (Nat.succ 1) st id_ f t strip = _
  simp only [API.convert_idF, if_neg h1, hhub, h3]

/-- Witness for claim C9 at a concrete facade: neither scheme `x` nor `y`
is the hub or a registered spoke of `stEx`, so the conversion fails and
names the one registered scheme `s2`. -/
theorem convert_id_unsupported_witness :
    API.convert_id stEx "i" "x" "y" false =
      Except.error
        (PyErr.notImplemented "x" "y" (String.intercalate "," (stEx.mappings.map Prod.fst))) :=
  convert_id_unsupported stEx "i" "x" "y" false (by decide) (by decide) (by decide)

/-- Claim C1 (corrected), counterexample: with hub `h`, spoke `s2` and
forward table `{'a': 'b'}`, the spec-side forward conversion of `a` yields
`b`, but `convert_id('a', f='h', t='s2')` does not perform it: it calls
`Alignment.convert` with the source default `reverse=True`, which raises
`TypeError` from `defaultdict('no mapping')`, so the result differs from
the claimed forward lookup. -/
theorem convert_id_hub_forward_cex :
    API.convert_id stEx "a" "h" "s2" false = Except.error PyErr.typeError ∧
    specHubForwardConvert [("a", "b")] "a" = "b" ∧
    API.convert_id stEx "a" "h" "s2" false ≠
      Except.ok (specHubForwardConvert [("a", "b")] "a") := by
  refine ⟨by decide, by decide, by decide⟩

/-- Claim C1 (corrected), amended: when the source scheme equals the hub and
the target scheme has a registered Alignment, `convert_id` delegates to that
Alignment's `convert` with `reverse` at its source default `True` (a
reverse-table conversion, not a forward lookup) and `strip` at its default
`False`. -/
theorem convert_id_hub_delegates_reverse (st : API) (A : Alignment)
    (id_ f t : String) (strip : Bool) (h1 : f ≠ t) (h2 : f = st.base_identifier)
    (h3 : pyLookup st.mappings t = some A) :
    API.convert_id st id_ f t strip =
      Alignment.convert A (if strip then strip_namespace id_ ["/", "#", "CID"] else id_)
        true false := by
  show API.convert_idF (Nat.succ 1) st id_ f t strip = _
  simp only [API.convert_idF, if_neg h1, if_pos h2, h3]

/-- Witness for the amended claim C1: on the concrete facade `stEx` the hub
case hands `a` to `Aex.convert` with `reverse=True`. -/
theorem convert_id_hub_delegates_reverse_witness :
    API.convert_id stEx "a" "h" "s2" false =
      Alignment.convert Aex (if false then strip_namespace "a" ["/", "#", "CID"] else "a")
        true false :=
  convert_id_hub_delegates_reverse stEx Aex "a" "h" "s2" false (by decide) (by decide)
    (by decide)

/-- Claim C2 (code_bug): on an Alignment whose loaded table is `{'a': 'b'}`,
converting the absent identifier `zzz` does not return the `'no mapping'`
sentinel: the forward path raises `KeyError` (the table is a plain dict,
`_to_defaultdict` having raised during load) and the reverse path raises
`TypeError` (`defaultdict` constructed with the non-callable string
`'no mapping'`), contradicting the `_mapping` docstring. -/
theorem alignment_convert_miss_raises :
    Alignment.convert Aex "zzz" false false = Except.error PyErr.keyError ∧
    Alignment.convert Aex "zzz" true false = Except.error PyErr.typeError ∧
    ∀ r : Bool, Alignment.convert Aex "zzz" r false ≠ Except.ok "no mapping" := by
  refine ⟨by decide, by decide, ?_⟩
  intro r
  cases r <;> decide

/-- Claim C3 (code_bug): a failing data source does leave the table empty in
the endpoint-query strategies (`query_endpoint` catches every exception and
returns the empty set), but `load` still propagates an exception: its final
`_to_defaultdict` raises `TypeError` on every call, and `LogMapMapping.load`
has no handler at all, so a missing or malformed alignment file propagates
the parse error directly. -/
theorem load_failure_raises :
    WikidataMapping.loadMappings (Except.error ()) = [] ∧
    WikidataMapping.load (Except.error ()) = Except.error PyErr.typeError ∧
    LogMapMapping.load (95 / 100) (Except.error ()) = Except.error PyErr.parseError := by
  refine ⟨rfl, rfl, rfl⟩

/-- Claim C4 (code_bug): on an Alignment with loaded table `{'a': 'b'}`,
the forward conversion of the key `a` returns `b`, but the reverse
conversion of the result raises `TypeError` (`defaultdict('no mapping')` is
constructed with a non-callable default), so the claimed round trip
`convert(convert('a', reverse=False), reverse=True) == 'a'` never
completes. -/
theorem alignment_round_trip_raises :
    Alignment.convert Aex "a" false false = Except.ok "b" ∧
    (Alignment.convert Aex "a" false false).bind
        (fun v => Alignment.convert Aex v true false) =
      Except.error PyErr.typeError ∧
    (Alignment.convert Aex "a" false false).bind
        (fun v => Alignment.convert Aex v true false) ≠
      Except.ok "a" := by
  refine ⟨by decide, by decide, by decide⟩

/-- Claim C5 (corrected), counterexample: with source entity `e`, targets
`b` (score 99) and `c` (score 96), both at or above the threshold 95, the
finalized table maps `e` to `c`, the target of the last accepted pair in
iteration order, not to the highest-scoring target `b`. -/
theorem string_matching_not_best_cex :
    pyLookup (StringMatchingMapping.loadMappings ["e"] ["b", "c"] exScore 95) "e" =
      some "c" ∧
    (95 : ℚ) ≤ exScore "e" "b" ∧ (95 : ℚ) ≤ exScore "e" "c" ∧
    exScore "e" "c" < exScore "e" "b" ∧
    pyLookup (StringMatchingMapping.loadMappings ["e"] ["b", "c"] exScore 95) "e" ≠
      some "b" := by
  refine ⟨by decide, by decide, by decide, by decide, by decide⟩

/-- Claim C5 (corrected), amended: for every source entity the finalized
string-matching table holds the target of the last accepted candidate pair
in loop order (source keys in `dict1` order, targets in `dict2` order),
later accepted pairs overwriting earlier ones in the dict comprehension. -/
theorem string_matching_keeps_last (d1 d2 : List String)
    (score : String → String → ℚ) (threshold : ℚ) (k1 : String) :
    pyLookup (StringMatchingMapping.loadMappings d1 d2 score threshold) k1 =
      lastValue (StringMatchingMapping.accepted d1 d2 score threshold) k1 :=
  pyLookup_pyDictOf _ _

/-- Claim C6 (confirmed): for fixed label dictionaries and scorer, the set
of accepted candidate pairs is antitone in the threshold: every pair
accepted at a threshold `t2` is also accepted at any threshold `t1 <= t2`. -/
theorem string_matching_threshold_antitone (d1 d2 : List String)
    (score : String → String → ℚ) (t1 t2 : ℚ) (p : String × String)
    (h : t1 ≤ t2) (hp : p ∈ StringMatchingMapping.accepted d1 d2 score t2) :
    p ∈ StringMatchingMapping.accepted d1 d2 score t1 := by
  simp only [StringMatchingMapping.accepted, List.mem_filter, decide_eq_true_eq] at hp ⊢
  exact ⟨hp.1, le_trans h hp.2⟩

/-- Witness for claim C6: the pair `(a, b)` accepted at threshold 1 is also
accepted at threshold 0. -/
theorem string_matching_threshold_antitone_witness :
    ("a", "b") ∈ StringMatchingMapping.accepted ["a"] ["b"] (fun _ _ => 1) 0 :=
  string_matching_threshold_antitone ["a"] ["b"] (fun _ _ => 1) 0 1 ("a", "b")
    (by decide) (by decide)

/-- Claim C7 (confirmed): a conversion-style operation wrapped by
`do_recursively_in_class` maps a collection input to the dict assigning
every element its individually computed scalar result, and applies the
scalar operation directly to a non-collection input. -/
theorem batch_equivalence {α β : Type} [DecidableEq α] (g : α → β) (xs : List α)
    (s : α) (h : s ∈ xs) :
    do_recursively_in_class g (PyInput.coll xs) =
      PyOutput.table (pyDictOf (xs.zip (xs.map g))) ∧
    pyLookup (pyDictOf (xs.zip (xs.map g))) s = some (g s) ∧
    do_recursively_in_class g (PyInput.scalar s) = PyOutput.scalar (g s) := by
  refine ⟨rfl, ?_, rfl⟩
  rw [pyLookup_pyDictOf]
  exact lastValue_zip_map xs g s h

/-- Witness for claim C7 on the concrete collection `[u, v]` with the
append-exclamation operation, evaluated at element `u`. -/
theorem batch_equivalence_witness :
    do_recursively_in_class (fun x => x ++ "!") (PyInput.coll ["u", "v"]) =
      PyOutput.table (pyDictOf (["u", "v"].zip (["u", "v"].map (fun x => x ++ "!")))) ∧
    pyLookup (pyDictOf (["u", "v"].zip (["u", "v"].map (fun x => x ++ "!")))) "u" =
      some "u!" ∧
    do_recursively_in_class (fun x => x ++ "!") (PyInput.scalar "u") =
      PyOutput.scalar "u!" :=
  batch_equivalence (fun x => x ++ "!") ["u", "v"] "u" (by decide)

/-- Claim C10 (code_bug): the reverse-index loop as written does skip every
forward entry whose value is the sentinel `'no mapping'`, so the sentinel
never occurs as a key of the derived reverse table; but in the running code
a reverse lookup of `'no mapping'` raises `TypeError` (the receiving
`defaultdict('no mapping')` fails to construct) instead of returning the
sentinel. -/
theorem reverse_index_skips_sentinel :
    ∀ m : List (String × String),
      pyLookup (reverseTable m) "no mapping" = none ∧
      Alignment.mappingLoaded m "no mapping" true = Except.error PyErr.typeError := by
  intro m
  constructor
  · apply pyLookup_pyDictOf_eq_none
    intro p hp
    simp only [List.mem_map] at hp
    obtain ⟨q, hq, rfl⟩ := hp
    have hft := List.of_mem_filter hq
    simpa using hft
  · rfl

end Tera
